import Mathlib

/-!
Verification of the blueberry maturity-analysis pipeline
(`src/web_app/models/blueberry_detector.py` and
`src/web_app/utils/report_generator.py`).

The Python code is shallowly embedded: dictionaries become association
lists (insertion-ordered, like Python dicts), Python `None` and missing
keys are modelled explicitly, floats become exact rationals, and the
pixel raster of an image is abstracted to the HSV statistics that the
code computes over crops (`np.mean` / `np.var` of the H, S, V planes),
since only those statistics reach the classification logic.
-/

namespace Arandano

/-- Python's `round` on exact values: round half to even (banker's
rounding), as used by `round(x, 1)` in `report_generator.py`. -/
def roundHalfEven (q : ℚ) : ℤ :=
  if q - q.floor < 1/2 then q.floor
  else if q - q.floor > 1/2 then q.floor + 1
  else if q.floor % 2 = 0 then q.floor else q.floor + 1

/-- `round(x, 1)`: round to one decimal place. -/
def round1 (q : ℚ) : ℚ := (roundHalfEven (q * 10) : ℚ) / 10

/-- A key of the Python `maturity_counts` dict.  Keys are the values of
the detections' `maturity` field: `none` stands for Python `None`
(a detection whose `maturity` key holds `None`), `some s` for a string. -/
abbrev MatKey := Option String

/-- `d[k] = d.get(k, 0) + 1` on an insertion-ordered dict: increment an
existing key or append a fresh one at the end. -/
def bump (k : MatKey) : List (MatKey × ℕ) → List (MatKey × ℕ)
  | [] => [(k, 1)]
  | (k₀, n) :: rest => if k₀ = k then (k₀, n + 1) :: rest else (k₀, n) :: bump k rest

/-- `d.get(k, 0)` on an association-list dict. -/
def getCount (m : List (MatKey × ℕ)) (k : MatKey) : ℕ :=
  match m with
  | [] => 0
  | (k₀, n) :: rest => if k₀ = k then n else getCount rest k

/-- `sum(d.values())`. -/
def countsTotal (m : List (MatKey × ℕ)) : ℕ := (m.map Prod.snd).sum

/-- The four buckets the aggregator pre-seeds
(`report_generator.py:100-105`). -/
def initCounts : List (MatKey × ℕ) :=
  [(some "maduro", 0), (some "semimaduro", 0), (some "no_maduro", 0), (some "unknown", 0)]

/-- The value of a detection's `maturity` field, as a Python dict entry:
the key may be missing, hold `None`, or hold a string. -/
inductive MatField where
  | missing : MatField
  | pynull : MatField
  | label (s : String) : MatField
deriving DecidableEq, Repr

/-- `detection.get('maturity')` — missing key and `None` both read as
Python `None`. -/
def MatField.get? : MatField → Option String
  | .missing => none
  | .pynull => none
  | .label s => some s

/-- `detection.get('maturity', 'unknown')` — the default fires only for
a missing key, not for a stored `None`. -/
def MatField.getDUnknown : MatField → Option String
  | .missing => some "unknown"
  | .pynull => none
  | .label s => some s

/-- A detection record (the fields of the Python dict that the maturity
pipeline reads or writes). -/
structure Det where
  bbox : List ℤ
  maturity : MatField
  maturity_confidence : Option ℚ
deriving DecidableEq, Repr

/-- The key under which `_analyze_maturity_distribution` counts a
detection (`report_generator.py:108`). -/
def matKey (d : Det) : MatKey := d.maturity.getDUnknown

/-- The counting loop of `_analyze_maturity_distribution`
(`report_generator.py:100-109`): seed the four buckets, then
`maturity_counts[maturity] = maturity_counts.get(maturity, 0) + 1`
per detection. -/
def maturityCounts (dets : List Det) : List (MatKey × ℕ) :=
  dets.foldl (fun m d => bump (matKey d) m) initCounts

/-- `_calculate_maturity_score` (`report_generator.py:129-145`):
0 when `total = 0`, else
`round((maduro*1.0 + semimaduro*0.5 + no_maduro*0.0) / total * 100, 1)`. -/
def maturityScore (m : List (MatKey × ℕ)) (total : ℕ) : ℚ :=
  if total = 0 then 0
  else
    round1 (((getCount m (some "maduro") : ℚ) * 1 +
             (getCount m (some "semimaduro") : ℚ) * (1/2) +
             (getCount m (some "no_maduro") : ℚ) * 0) / (total : ℚ) * 100)

/-- The maturity-distribution record returned by
`_analyze_maturity_distribution` (`report_generator.py:119-124`). -/
structure MaturityDistribution where
  counts : List (MatKey × ℕ)
  percentages : List (MatKey × ℚ)
  total_analyzed : ℕ
  maturity_score : ℚ
deriving DecidableEq, Repr

/-- `_analyze_maturity_distribution` (`report_generator.py:94-124`):
count per class, total = sum of counts, percentages computed only when
`total > 0` (the dict stays empty otherwise), score from
`_calculate_maturity_score`. -/
def analyzeMaturityDistribution (dets : List Det) : MaturityDistribution :=
  let m := maturityCounts dets
  let total := countsTotal m
  { counts := m
    percentages :=
      if total > 0 then m.map (fun p => (p.1, round1 ((p.2 : ℚ) / (total : ℚ) * 100)))
      else []
    total_analyzed := total
    maturity_score := maturityScore m total }

/-- `_get_harvest_recommendation` (`report_generator.py:165-176`). -/
def harvestRecommendation (score : ℚ) : String :=
  if score ≥ 80 then "Cosecha inmediata recomendada - Alta proporción de frutos maduros"
  else if score ≥ 60 then "Cosecha en 2-3 días - Buena proporción de frutos maduros"
  else if score ≥ 40 then "Cosecha en 5-7 días - Proporción moderada de frutos maduros"
  else if score ≥ 20 then "Cosecha en 10-14 días - Mayoría de frutos aún inmaduros"
  else "No cosechar aún - Frutos predominantemente inmaduros"

/-- `_get_timing_recommendation` (`report_generator.py:178-189`). -/
def timingRecommendation (score : ℚ) : String :=
  if score ≥ 80 then "Urgente - Cosechar dentro de 24-48 horas"
  else if score ≥ 60 then "Pronto - Cosechar dentro de 3-5 días"
  else if score ≥ 40 then "Moderado - Cosechar dentro de 1 semana"
  else if score ≥ 20 then "Paciente - Cosechar dentro de 2 semanas"
  else "Esperar - Continuar monitoreo semanal"

/-- `_get_quality_assessment` (`report_generator.py:191-206`): the ripe
percentage `maduro_pct = counts.get('maduro', 0) / total * 100` drives a
separate threshold ladder; `total = 0` short-circuits to the no-fruit
text. -/
def qualityAssessment (m : List (MatKey × ℕ)) : String :=
  let total := countsTotal m
  if total = 0 then "No se detectaron frutos"
  else
    let pct : ℚ := (getCount m (some "maduro") : ℚ) / (total : ℚ) * 100
    if pct ≥ 70 then "Excelente - Alta calidad de maduración"
    else if pct ≥ 50 then "Buena - Calidad de maduración aceptable"
    else if pct ≥ 30 then "Regular - Calidad de maduración moderada"
    else "Baja - Calidad de maduración deficiente"

/-- A threshold-band table: inclusive lower bounds evaluated from the
head of the list (highest first), falling through to a default. -/
def bandLookup (bands : List (ℚ × String)) (dflt : String) (x : ℚ) : String :=
  match bands with
  | [] => dflt
  | (t, s) :: rest => if x ≥ t then s else bandLookup rest dflt x

/-- The harvest bands, highest threshold first. -/
def harvestBands : List (ℚ × String) :=
  [(80, "Cosecha inmediata recomendada - Alta proporción de frutos maduros"),
   (60, "Cosecha en 2-3 días - Buena proporción de frutos maduros"),
   (40, "Cosecha en 5-7 días - Proporción moderada de frutos maduros"),
   (20, "Cosecha en 10-14 días - Mayoría de frutos aún inmaduros")]

/-- The timing bands, highest threshold first. -/
def timingBands : List (ℚ × String) :=
  [(80, "Urgente - Cosechar dentro de 24-48 horas"),
   (60, "Pronto - Cosechar dentro de 3-5 días"),
   (40, "Moderado - Cosechar dentro de 1 semana"),
   (20, "Paciente - Cosechar dentro de 2 semanas")]

/-- The ripe fraction (in percent) the quality ladder is driven by. -/
def ripeFrac (m : List (MatKey × ℕ)) : ℚ :=
  (getCount m (some "maduro") : ℚ) / (countsTotal m : ℚ) * 100

/-- The quality ladder as a function of the ripe fraction alone. -/
def qualityOfFrac (pct : ℚ) : String :=
  if pct ≥ 70 then "Excelente - Alta calidad de maduración"
  else if pct ≥ 50 then "Buena - Calidad de maduración aceptable"
  else if pct ≥ 30 then "Regular - Calidad de maduración moderada"
  else "Baja - Calidad de maduración deficiente"

/-- The four-bucket counts dict for an explicit count assignment
(ripe, semi-ripe, unripe, unknown). -/
def countsOf (r s u k : ℕ) : List (MatKey × ℕ) :=
  [(some "maduro", r), (some "semimaduro", s), (some "no_maduro", u), (some "unknown", k)]

/-- The maturity score as the spec words it:
`round(100 × (ripe×1.0 + semi_ripe×0.5 + unripe×0.0) / total, 1)` with
unknown in the denominator at weight 0, and 0 when the total is 0. -/
def maturityScoreSpec (r s u k : ℕ) : ℚ :=
  if r + s + u + k = 0 then 0
  else round1 (100 * ((r : ℚ) + (s : ℚ) / 2) / ((r + s + u + k : ℕ) : ℚ))

/-- An image, abstracted to its dimensions and to the HSV statistics
that `blueberry_detector.py` computes over a crop
`image[y1:y2, x1:x2]`: the mean of the H, S, V planes (`np.mean`,
lines 333-335) and the variance of the H plane (`np.var`, line 369).
Only these statistics of the raster reach the classification logic. -/
structure Image where
  height : ℕ
  width : ℕ
  meanHue : ℤ → ℤ → ℤ → ℤ → ℚ
  meanSat : ℤ → ℤ → ℤ → ℤ → ℚ
  meanVal : ℤ → ℤ → ℤ → ℤ → ℚ
  hueVar : ℤ → ℤ → ℤ → ℤ → ℚ

/-- The clamping-and-expansion step of `analyze_maturity`
(`blueberry_detector.py:269-278`): each coordinate is clamped to
`[0, dim-1]`, and a collapsed side is widened by one pixel, capped at
`dim-1`. -/
def clampBox (w h x1 y1 x2 y2 : ℤ) : ℤ × ℤ × ℤ × ℤ :=
  let x1n := max 0 (min x1 (w - 1))
  let y1n := max 0 (min y1 (h - 1))
  let x2c := max 0 (min x2 (w - 1))
  let y2c := max 0 (min y2 (h - 1))
  let x2n := if x2c ≤ x1n then min (w - 1) (x1n + 1) else x2c
  let y2n := if y2c ≤ y1n then min (h - 1) (y1n + 1) else y2c
  (x1n, y1n, x2n, y2n)

/-- `_analyze_berry_maturity` (`blueberry_detector.py:328-350`) as a
function of the crop's mean hue, saturation and value:
hue < 120 and saturation > 100 gives the blue/purple family, split on
value > 150; hue strictly greater than 120 gives green; anything else
(hue exactly 120 included) is unknown. -/
def classifyRegion (hue sat val : ℚ) : String :=
  if hue < 120 ∧ sat > 100 then
    if val > 150 then "semimaduro" else "maduro"
  else if hue > 120 then "no_maduro"
  else "unknown"

/-- `_calculate_maturity_confidence` (`blueberry_detector.py:366-373`):
`min(1.0, max(0.0, 1.0 - hue_variance/1000))`. -/
def matConfidence (hvar : ℚ) : ℚ := min 1 (max 0 (1 - hvar / 1000))

/-- The recognized model-provided maturity labels
(`blueberry_detector.py:287`). -/
def recognizedLabels : List String := ["maduro", "semimaduro", "no_maduro"]

/-- One iteration of the `analyze_maturity` loop
(`blueberry_detector.py:263-298`) on a single detection:
skip it entirely when `bbox` does not have four elements; otherwise
clamp the box, write it back, and — when the crop is non-empty — keep a
recognized model label or classify by color and recompute the
confidence, while a degenerate crop keeps the existing fields with
`unknown` / `0.0` as missing-key defaults. -/
def processDetection (im : Image) (d : Det) : Option Det :=
  match d.bbox with
  | [x1, y1, x2, y2] =>
    let r := clampBox (im.width : ℤ) (im.height : ℤ) x1 y1 x2 y2
    let x1n := r.1
    let y1n := r.2.1
    let x2n := r.2.2.1
    let y2n := r.2.2.2
    if x1n < x2n ∧ y1n < y2n then
      let mat : String :=
        match d.maturity.get? with
        | some s => if s ∈ recognizedLabels then s else
            classifyRegion (im.meanHue x1n y1n x2n y2n)
              (im.meanSat x1n y1n x2n y2n) (im.meanVal x1n y1n x2n y2n)
        | none =>
            classifyRegion (im.meanHue x1n y1n x2n y2n)
              (im.meanSat x1n y1n x2n y2n) (im.meanVal x1n y1n x2n y2n)
      some { bbox := [x1n, y1n, x2n, y2n]
             maturity := .label mat
             maturity_confidence := some (matConfidence (im.hueVar x1n y1n x2n y2n)) }
    else
      some { bbox := [x1n, y1n, x2n, y2n]
             maturity :=
               match d.maturity.getDUnknown with
               | some s => .label s
               | none => .pynull
             maturity_confidence := some (d.maturity_confidence.getD 0) }
  | _ => none

/-- The record `analyze_maturity` returns
(`blueberry_detector.py:302-307` and `311-316`). -/
structure AnalysisResult where
  detections : List Det
  processing_time : ℚ
  image_resolution : String
  total_detected : ℕ
deriving DecidableEq, Repr

/-- The fixed record the `except` arm of `analyze_maturity` returns
(`blueberry_detector.py:311-316`). -/
def fallbackResult : AnalysisResult :=
  { detections := [], processing_time := 0, image_resolution := "Unknown", total_detected := 0 }

/-- `analyze_maturity` (`blueberry_detector.py:248-316`).  The image
argument is `Option Image`: `none` is Python `None`, whose first
attribute access (`image.shape`) raises inside the `try` and lands in
the `except` arm.  `elapsed` is the measured wall-clock duration in
milliseconds, an input of the model. -/
def analyzeMaturity (dets : List Det) (img : Option Image) (elapsed : ℚ) : AnalysisResult :=
  match img with
  | none => fallbackResult
  | some im =>
    let results := dets.filterMap (processDetection im)
    { detections := results
      processing_time := elapsed
      image_resolution := toString im.width ++ "x" ++ toString im.height
      total_detected := results.length }

/-- The image-load check of `process_image` (`app.py:235-237`):
`cv2.imread` returning `None` raises `ValueError("No se pudo cargar la
imagen")`; otherwise the loaded image flows on. -/
def loadCheck (img : Option Image) : Except String Image :=
  match img with
  | none => Except.error "No se pudo cargar la imagen"
  | some im => Except.ok im

end Arandano


namespace Arandano

/-! ## Helper lemmas -/

theorem ratFloor_eq (q : ℚ) : q.floor = ⌊q⌋ := rfl

theorem countsTotal_bump (k : MatKey) (m : List (MatKey × ℕ)) :
    countsTotal (bump k m) = countsTotal m + 1 := by
  induction m with
  | nil => rfl
  | cons p rest ih =>
    obtain ⟨k₀, n⟩ := p
    by_cases h : k₀ = k
    · simp [bump, h, countsTotal]
      omega
    · simp [bump, h, countsTotal] at ih ⊢
      omega

theorem countsTotal_foldl (dets : List Det) (m : List (MatKey × ℕ)) :
    countsTotal (dets.foldl (fun acc d => bump (matKey d) acc) m) =
      countsTotal m + dets.length := by
  induction dets generalizing m with
  | nil => simp
  | cons d rest ih =>
    simp only [List.foldl_cons, ih, countsTotal_bump, List.length_cons]
    omega

theorem clampBox_props (w h x1 y1 x2 y2 : ℤ) (hw : 1 ≤ w) (hh : 1 ≤ h) :
    0 ≤ (clampBox w h x1 y1 x2 y2).1 ∧
    (clampBox w h x1 y1 x2 y2).1 ≤ (clampBox w h x1 y1 x2 y2).2.2.1 ∧
    (clampBox w h x1 y1 x2 y2).2.2.1 ≤ w - 1 ∧
    ((clampBox w h x1 y1 x2 y2).1 < w - 1 →
      (clampBox w h x1 y1 x2 y2).1 < (clampBox w h x1 y1 x2 y2).2.2.1) ∧
    0 ≤ (clampBox w h x1 y1 x2 y2).2.1 ∧
    (clampBox w h x1 y1 x2 y2).2.1 ≤ (clampBox w h x1 y1 x2 y2).2.2.2 ∧
    (clampBox w h x1 y1 x2 y2).2.2.2 ≤ h - 1 ∧
    ((clampBox w h x1 y1 x2 y2).2.1 < h - 1 →
      (clampBox w h x1 y1 x2 y2).2.1 < (clampBox w h x1 y1 x2 y2).2.2.2) := by
  simp only [clampBox]
  split_ifs <;> omega

end Arandano

namespace Arandano

/-! ## Claim theorems -/

/-- C1: for every count assignment (ripe, semi-ripe, unripe, unknown)
with total equal to the sum of the four counts, the aggregator's
maturity score equals
`round(100 × (ripe×1.0 + semi_ripe×0.5 + unripe×0.0) / total, 1)`,
with unknown detections in the denominator at weight 0, equals 0 when
the total is 0, and the counts (8, 2, 0, 0) yield score 90. -/
theorem maturityScore_matches_spec (r s u k : ℕ) :
    maturityScore (countsOf r s u k) (r + s + u + k) = maturityScoreSpec r s u k ∧
    maturityScore (countsOf 8 2 0 0) 10 = 90 := by
  constructor
  · unfold maturityScore maturityScoreSpec
    by_cases h : r + s + u + k = 0
    · simp [h]
    · rw [if_neg h, if_neg h]
      congr 1
      simp only [countsOf, getCount]
      norm_num
      push_cast
      ring
  · norm_num +decide [maturityScore, countsOf, getCount, round1, roundHalfEven, ratFloor_eq]

/-- C5: the empty detection list yields a distribution with all four
class counts 0, empty percentages (every per-class read is 0), total 0,
score 0, the do-not-harvest recommendation and the no-fruit quality
text. -/
theorem empty_detections_distribution :
    (analyzeMaturityDistribution []).counts = countsOf 0 0 0 0 ∧
    (analyzeMaturityDistribution []).percentages = [] ∧
    (∀ c : MatKey, (((analyzeMaturityDistribution []).percentages.lookup c).getD 0) = 0) ∧
    (analyzeMaturityDistribution []).total_analyzed = 0 ∧
    (analyzeMaturityDistribution []).maturity_score = 0 ∧
    harvestRecommendation (analyzeMaturityDistribution []).maturity_score =
      "No cosechar aún - Frutos predominantemente inmaduros" ∧
    qualityAssessment (analyzeMaturityDistribution []).counts =
      "No se detectaron frutos" := by
  refine ⟨by decide, by decide, fun c => rfl, by decide, by decide, by decide, by decide⟩

/-- C6: for every detection list — including unset maturity values and
labels outside the four recognized classes — the aggregator's class
counts sum exactly to the length of the list. -/
theorem counts_sum_to_length (dets : List Det) :
    countsTotal (maturityCounts dets) = dets.length := by
  unfold maturityCounts
  rw [countsTotal_foldl]
  simp [countsTotal, initCounts]

end Arandano

namespace Arandano

/-- C2 counterexample: at mean hue exactly 120 (with high saturation and
value) the heuristic classifier returns `unknown`, not the `no_maduro`
(unripe) the claim asserts for every mean hue ≥ 120 — the code's green
branch tests `mean_hue > 120` strictly. -/
theorem classifyRegion_hue120_not_unripe :
    classifyRegion 120 200 200 = "unknown" ∧
    classifyRegion 120 200 200 ≠ "no_maduro" := by decide

/-- C2 amended: semi-ripe when hue < 120, saturation > 100 and
value > 150; ripe when hue < 120, saturation > 100 and value ≤ 150;
unripe when hue is strictly greater than 120; unknown otherwise —
including hue exactly 120, whatever the saturation and value. -/
theorem classifyRegion_cases (hue sat val : ℚ) :
    (hue < 120 → sat > 100 → val > 150 → classifyRegion hue sat val = "semimaduro") ∧
    (hue < 120 → sat > 100 → val ≤ 150 → classifyRegion hue sat val = "maduro") ∧
    (hue > 120 → classifyRegion hue sat val = "no_maduro") ∧
    (hue = 120 ∨ (hue < 120 ∧ sat ≤ 100) → classifyRegion hue sat val = "unknown") := by
  unfold classifyRegion
  refine ⟨fun h1 h2 h3 => ?_, fun h1 h2 h3 => ?_, fun h1 => ?_, fun h => ?_⟩
  · rw [if_pos ⟨h1, h2⟩, if_pos h3]
  · rw [if_pos ⟨h1, h2⟩, if_neg (not_lt.mpr h3)]
  · rw [if_neg (fun hc => absurd hc.1 (not_lt.mpr h1.le)), if_pos h1]
  · rcases h with h | ⟨h1, h2⟩
    · rw [if_neg (fun hc => absurd hc.1 (by rw [h]; exact lt_irrefl _)),
        if_neg (by rw [h]; exact lt_irrefl _)]
    · rw [if_neg (fun hc => absurd hc.2 (not_lt.mpr h2)), if_neg (not_lt.mpr h1.le)]

/-- C2 witness: the amended classification at concrete inputs in each
branch. -/
theorem classifyRegion_cases_witness :
    ((110 : ℚ) < 120 ∧ (150 : ℚ) > 100 ∧ (200 : ℚ) > 150 ∧
      classifyRegion 110 150 200 = "semimaduro") ∧
    ((110 : ℚ) < 120 ∧ (150 : ℚ) > 100 ∧ (140 : ℚ) ≤ 150 ∧
      classifyRegion 110 150 140 = "maduro") ∧
    ((121 : ℚ) > 120 ∧ classifyRegion 121 30 40 = "no_maduro") :=
  ⟨⟨by decide, by decide, by decide,
      (classifyRegion_cases 110 150 200).1 (by decide) (by decide) (by decide)⟩,
   ⟨by decide, by decide, by decide,
      (classifyRegion_cases 110 150 140).2.1 (by decide) (by decide) (by decide)⟩,
   ⟨by decide, (classifyRegion_cases 121 30 40).2.2.1 (by decide)⟩⟩

/-- C4: the harvest and timing recommendations are band lookups with
inclusive lower bounds evaluated highest first (≥ 80, ≥ 60, ≥ 40, ≥ 20,
else the do-not-harvest band), and for counts with positive total the
quality assessment is a function of the ripe fraction alone, independent
of the score bands. -/
theorem recommendation_bands (score : ℚ) (m : List (MatKey × ℕ))
    (hm : 0 < countsTotal m) :
    harvestRecommendation score =
      bandLookup harvestBands "No cosechar aún - Frutos predominantemente inmaduros" score ∧
    timingRecommendation score =
      bandLookup timingBands "Esperar - Continuar monitoreo semanal" score ∧
    qualityAssessment m = qualityOfFrac (ripeFrac m) := by
  refine ⟨?_, ?_, ?_⟩
  · simp [harvestRecommendation, bandLookup, harvestBands]
  · simp [timingRecommendation, bandLookup, timingBands]
  · simp [qualityAssessment, qualityOfFrac, ripeFrac, hm.ne']

/-- C4 witness: the band characterization at score 85 and the
ripe-fraction quality at counts (3, 1, 0, 0). -/
theorem recommendation_bands_witness :
    0 < countsTotal (countsOf 3 1 0 0) ∧
    (harvestRecommendation 85 =
      bandLookup harvestBands "No cosechar aún - Frutos predominantemente inmaduros" 85 ∧
    timingRecommendation 85 =
      bandLookup timingBands "Esperar - Continuar monitoreo semanal" 85 ∧
    qualityAssessment (countsOf 3 1 0 0) = qualityOfFrac (ripeFrac (countsOf 3 1 0 0))) :=
  ⟨by decide, recommendation_bands 85 (countsOf 3 1 0 0) (by decide)⟩

end Arandano

namespace Arandano

/-- A flat 10×10 test image whose every crop statistic is 0. -/
def testIm10 : Image :=
  { height := 10, width := 10
    meanHue := fun _ _ _ _ => 0, meanSat := fun _ _ _ _ => 0
    meanVal := fun _ _ _ _ => 0, hueVar := fun _ _ _ _ => 0 }

/-- A 1×1 test image: every clamped crop in it is degenerate. -/
def testIm1 : Image :=
  { height := 1, width := 1
    meanHue := fun _ _ _ _ => 0, meanSat := fun _ _ _ _ => 0
    meanVal := fun _ _ _ _ => 0, hueVar := fun _ _ _ _ => 0 }

/-- C3 counterexample: on a 10×10 image, the input box [9, 5, 9, 7]
(x-side collapsed at the right edge) is stored back as [9, 5, 9, 7] —
the one-pixel expansion is capped at `width - 1`, so the stored box has
x1 = x2 = 9 and zero width, refuting `0 ≤ x1 < x2 ≤ width - 1`. -/
theorem clamped_box_zero_width_at_edge :
    (processDetection testIm10
        { bbox := [9, 5, 9, 7], maturity := .missing,
          maturity_confidence := none }).map Det.bbox = some [9, 5, 9, 7] ∧
    ¬ ((9 : ℤ) < 9) := by decide

/-- C3 amended: for every image with width ≥ 1 and height ≥ 1 and every
detection with a 4-element integer box, the stored box satisfies
`0 ≤ x1 ≤ x2 ≤ width-1` and `0 ≤ y1 ≤ y2 ≤ height-1`, is never dropped,
and is strictly positive in a direction whenever its clamped origin is
not pinned at the far edge (`x1 < width-1 → x1 < x2`, and likewise for
y); a box whose clamped origin sits at the far edge may keep zero
width or height there. -/
theorem clamped_box_in_bounds (im : Image) (d : Det) (x1 y1 x2 y2 : ℤ)
    (hw : 1 ≤ im.width) (hh : 1 ≤ im.height)
    (hb : d.bbox = [x1, y1, x2, y2]) :
    ∃ d', processDetection im d = some d' ∧
      ∃ a b c e, d'.bbox = [a, b, c, e] ∧
        0 ≤ a ∧ a ≤ c ∧ c ≤ (im.width : ℤ) - 1 ∧ (a < (im.width : ℤ) - 1 → a < c) ∧
        0 ≤ b ∧ b ≤ e ∧ e ≤ (im.height : ℤ) - 1 ∧ (b < (im.height : ℤ) - 1 → b < e) := by
  have hw' : (1 : ℤ) ≤ (im.width : ℤ) := by exact_mod_cast hw
  have hh' : (1 : ℤ) ≤ (im.height : ℤ) := by exact_mod_cast hh
  obtain ⟨p1, p2, p3, p4, p5, p6, p7, p8⟩ :=
    clampBox_props (im.width : ℤ) (im.height : ℤ) x1 y1 x2 y2 hw' hh'
  unfold processDetection
  rw [hb]
  dsimp only
  split_ifs with hc
  · exact ⟨_, rfl, _, _, _, _, rfl, p1, p2, p3, p4, p5, p6, p7, p8⟩
  · exact ⟨_, rfl, _, _, _, _, rfl, p1, p2, p3, p4, p5, p6, p7, p8⟩

/-- C3 witness: the amended bound statement instantiated on a 10×10
image and the box [2, 3, 6, 8]. -/
theorem clamped_box_in_bounds_witness :
    1 ≤ testIm10.width ∧ 1 ≤ testIm10.height ∧
    (∃ d', processDetection testIm10
        { bbox := [2, 3, 6, 8], maturity := .missing, maturity_confidence := none } = some d' ∧
      ∃ a b c e, d'.bbox = [a, b, c, e] ∧
        0 ≤ a ∧ a ≤ c ∧ c ≤ (testIm10.width : ℤ) - 1 ∧
        (a < (testIm10.width : ℤ) - 1 → a < c) ∧
        0 ≤ b ∧ b ≤ e ∧ e ≤ (testIm10.height : ℤ) - 1 ∧
        (b < (testIm10.height : ℤ) - 1 → b < e)) :=
  ⟨by decide, by decide,
    clamped_box_in_bounds testIm10
      { bbox := [2, 3, 6, 8], maturity := .missing, maturity_confidence := none }
      2 3 6 8 (by decide) (by decide) rfl⟩

end Arandano

namespace Arandano

theorem processDetection_keeps_recognized (im : Image) (d : Det) (s : String)
    (x1 y1 x2 y2 : ℤ) (hb : d.bbox = [x1, y1, x2, y2])
    (hm : d.maturity = .label s) (hs : s ∈ recognizedLabels) :
    ∃ d', processDetection im d = some d' ∧ d'.maturity = .label s ∧
      ∃ a b c e, d'.bbox = [a, b, c, e] := by
  unfold processDetection
  rw [hb, hm]
  dsimp only [MatField.get?, MatField.getDUnknown]
  split_ifs with hc
  · exact ⟨_, rfl, rfl, _, _, _, _, rfl⟩
  · exact ⟨_, rfl, rfl, _, _, _, _, rfl⟩

/-- C7: a detection that already carries a recognized maturity label
(`maduro`, `semimaduro` or `no_maduro`) keeps that label through the
classifier, whatever the image's pixel statistics, and a second
application still yields the same label. -/
theorem recognized_label_idempotent (im : Image) (d : Det) (s : String)
    (x1 y1 x2 y2 : ℤ) (hb : d.bbox = [x1, y1, x2, y2])
    (hm : d.maturity = .label s) (hs : s ∈ recognizedLabels) :
    ∃ d', processDetection im d = some d' ∧ d'.maturity = .label s ∧
      ∃ d'', processDetection im d' = some d'' ∧ d''.maturity = .label s := by
  obtain ⟨d', h1, h2, a, b, c, e, hb'⟩ :=
    processDetection_keeps_recognized im d s x1 y1 x2 y2 hb hm hs
  obtain ⟨d'', h1', h2', -⟩ :=
    processDetection_keeps_recognized im d' s a b c e hb' h2 hs
  exact ⟨d', h1, h2, d'', h1', h2'⟩

/-- C7 witness: a `maduro`-labelled detection on a concrete image. -/
theorem recognized_label_idempotent_witness :
    "maduro" ∈ recognizedLabels ∧
    (∃ d', processDetection testIm10
        { bbox := [2, 3, 6, 8], maturity := .label "maduro",
          maturity_confidence := none } = some d' ∧
      d'.maturity = .label "maduro" ∧
      ∃ d'', processDetection testIm10 d' = some d'' ∧ d''.maturity = .label "maduro") :=
  ⟨by decide,
    recognized_label_idempotent testIm10
      { bbox := [2, 3, 6, 8], maturity := .label "maduro", maturity_confidence := none }
      "maduro" 2 3 6 8 rfl rfl (by decide)⟩

/-- C8 counterexample: on a 1×1 image every crop is degenerate, yet a
detection that arrives with `maturity = 'maduro'` and
`maturity_confidence = 1` keeps both values — the code re-reads the
existing fields with `unknown`/`0.0` only as missing-key defaults, so
the claim that a degenerate crop is always marked `unknown` with
confidence 0 fails. -/
theorem degenerate_crop_keeps_fields :
    (processDetection testIm1
        { bbox := [0, 0, 1, 1], maturity := .label "maduro",
          maturity_confidence := some 1 }).map
      (fun x => (x.maturity, x.maturity_confidence)) =
      some (.label "maduro", some 1) ∧
    MatField.label "maduro" ≠ .label "unknown" ∧ some (1 : ℚ) ≠ some 0 := by decide

/-- C8 amended: a detection whose clamped crop is degenerate keeps the
maturity and confidence values it already carries, with `unknown` and
0 only as missing-key defaults; the detection is kept and processing of
the remaining detections continues. -/
theorem degenerate_crop_defaults (im : Image) (d : Det) (rest : List Det) (e : ℚ)
    (x1 y1 x2 y2 : ℤ) (hb : d.bbox = [x1, y1, x2, y2])
    (hdeg : ¬ ((clampBox (im.width : ℤ) (im.height : ℤ) x1 y1 x2 y2).1 <
                 (clampBox (im.width : ℤ) (im.height : ℤ) x1 y1 x2 y2).2.2.1 ∧
               (clampBox (im.width : ℤ) (im.height : ℤ) x1 y1 x2 y2).2.1 <
                 (clampBox (im.width : ℤ) (im.height : ℤ) x1 y1 x2 y2).2.2.2)) :
    ∃ d', processDetection im d = some d' ∧
      d'.maturity = (match d.maturity.getDUnknown with
                     | some s => MatField.label s
                     | none => MatField.pynull) ∧
      d'.maturity_confidence = some (d.maturity_confidence.getD 0) ∧
      (analyzeMaturity (d :: rest) (some im) e).detections =
        d' :: (analyzeMaturity rest (some im) e).detections := by
  have hsome : processDetection im d = some
      { bbox := [(clampBox (im.width : ℤ) (im.height : ℤ) x1 y1 x2 y2).1,
                 (clampBox (im.width : ℤ) (im.height : ℤ) x1 y1 x2 y2).2.1,
                 (clampBox (im.width : ℤ) (im.height : ℤ) x1 y1 x2 y2).2.2.1,
                 (clampBox (im.width : ℤ) (im.height : ℤ) x1 y1 x2 y2).2.2.2]
        maturity := (match d.maturity.getDUnknown with
                     | some s => MatField.label s
                     | none => MatField.pynull)
        maturity_confidence := some (d.maturity_confidence.getD 0) } := by
    unfold processDetection
    rw [hb]
    dsimp only
    rw [if_neg hdeg]
  refine ⟨_, hsome, rfl, rfl, ?_⟩
  simp [analyzeMaturity, List.filterMap_cons, hsome]

/-- C8 witness: a field-less detection on the 1×1 image gets the
defaults `unknown` and confidence 0 and stays in the result list. -/
theorem degenerate_crop_defaults_witness :
    ¬ ((clampBox (testIm1.width : ℤ) (testIm1.height : ℤ) 0 0 1 1).1 <
         (clampBox (testIm1.width : ℤ) (testIm1.height : ℤ) 0 0 1 1).2.2.1 ∧
       (clampBox (testIm1.width : ℤ) (testIm1.height : ℤ) 0 0 1 1).2.1 <
         (clampBox (testIm1.width : ℤ) (testIm1.height : ℤ) 0 0 1 1).2.2.2) ∧
    (∃ d', processDetection testIm1
        { bbox := [0, 0, 1, 1], maturity := .missing, maturity_confidence := none } = some d' ∧
      d'.maturity = MatField.label "unknown" ∧
      d'.maturity_confidence = some 0 ∧
      (analyzeMaturity
          [{ bbox := [0, 0, 1, 1], maturity := .missing, maturity_confidence := none }]
          (some testIm1) 0).detections =
        d' :: (analyzeMaturity [] (some testIm1) 0).detections) :=
  ⟨by decide,
    degenerate_crop_defaults testIm1
      { bbox := [0, 0, 1, 1], maturity := .missing, maturity_confidence := none }
      [] 0 0 0 1 1 rfl (by decide)⟩

/-- C9 counterexample: fed a null image and a non-empty detection list,
`analyze_maturity` does not raise an invalid-image error — it returns
the fixed fallback record, a silent empty-detections result, refuting
the claim that such input always fails with an explicit error. -/
theorem null_image_silent_empty_result :
    analyzeMaturity
        [{ bbox := [0, 0, 5, 5], maturity := .missing, maturity_confidence := none }]
        none 7 = fallbackResult ∧
    fallbackResult.detections = [] ∧ fallbackResult.total_detected = 0 :=
  ⟨rfl, rfl, rfl⟩

/-- C9 amended: only `process_image`'s load step rejects a null image
with the explicit invalid-image error; the inner `analyze_maturity`
fails soft on a null image, returning the fixed fallback record with
empty detections instead of raising. -/
theorem null_image_error_only_at_load (dets : List Det) (e : ℚ) :
    loadCheck none = Except.error "No se pudo cargar la imagen" ∧
    analyzeMaturity dets none e = fallbackResult :=
  ⟨rfl, rfl⟩

/-- C10: `analyze_maturity` never propagates an error: when the image
argument is null (its dimension access raises inside the `try`), it
returns the fixed record with empty detections, processing time 0,
resolution "Unknown" and zero total, for every detection list. -/
theorem analyze_maturity_fail_soft (dets : List Det) (e : ℚ) :
    analyzeMaturity dets none e =
      { detections := [], processing_time := 0, image_resolution := "Unknown",
        total_detected := 0 } :=
  rfl

end Arandano
